import Mathlib

/-!
Verification of the window.ai provider layer against its implementation.

The development shallowly embeds two source areas:

* `src/core/llm/openai.ts` — the OpenAI provider descriptor built by `init`:
  model/tier selection (`getModelId`), URL path selection (`getPath`), the
  wire-payload builder (`transformForRequest`) and the response normalizer
  (`transformResponse`).
* the configuration and transaction managers (`ConfigManager`,
  `TransactionManager`) — config resolution for a model id, credential
  checks, and transaction construction/validation.

Modelling conventions:

* TypeScript optional properties are `Option`; an optional property is
  treated as present exactly when it is `some`.
* Where the source manipulates raw JavaScript objects by key (destructuring
  with rest-spread in `transformForRequest`), objects are modelled as
  partial maps `String → Option JsVal`, so "the key is absent" (`none`)
  is distinguished from "the key holds `undefined`" (`some .undef`).
* JavaScript truthiness is modelled where the source branches on it
  (empty strings and `0` are falsy; arrays and objects are truthy).
* Code paths that would raise a `TypeError` at runtime (such as reading
  `.length` of a non-array) are modelled by an `Option`/`Except` result.
* Asynchronous storage-backed methods are modelled by explicit state
  passing over a `CMState` record; `uuidv4()` and `Date.now()` are passed
  in as explicit parameters.
-/

/-- A chat message, `{role, content}` (from the public interface). -/
structure ChatMessage where
  role : String
  content : String
deriving DecidableEq, Repr

namespace OpenAI

/-- The `OpenAIModelId` string enum from `openai.ts`. -/
inductive OpenAIModelId where
  | Davinci
  | Curie
  | Codex
  | GPT3_5_Turbo
  | GPT4
deriving DecidableEq, Repr

/-- String value of each `OpenAIModelId` enum member. -/
def OpenAIModelId.str : OpenAIModelId → String
  | .Davinci => "text-davinci-003"
  | .Curie => "text-curie-001"
  | .Codex => "code-davinci-002"
  | .GPT3_5_Turbo => "gpt-3.5-turbo"
  | .GPT4 => "gpt-4"

/-- The part of a normalized request that `getModelId` and `getPath`
inspect: the optional `messages` array (message-array input) and the
optional `prompt`.  The optional `messages` property is present exactly
when it is `some`. -/
structure LlmRequest where
  prompt : Option String := none
  messages : Option (List ChatMessage) := none
deriving DecidableEq, Repr

/-- `const completionModelId = config.quality === "low" ? OpenAIModelId.Curie : OpenAIModelId.Davinci` -/
def completionModelId (quality : String) : OpenAIModelId :=
  if quality = "low" then .Curie else .Davinci

/-- `const chatModelId = config.quality === "low" ? OpenAIModelId.GPT3_5_Turbo : OpenAIModelId.GPT4` -/
def chatModelId (quality : String) : OpenAIModelId :=
  if quality = "low" then .GPT3_5_Turbo else .GPT4

/-- `getModelId: (req) => (req.messages ? chatModelId : completionModelId)`.
A present `messages` value is an array, and arrays (empty ones included)
are truthy, so the truthiness test is presence of the optional property. -/
def getModelId (quality : String) (req : LlmRequest) : String :=
  if req.messages.isSome then (chatModelId quality).str
  else (completionModelId quality).str

/-- `getPath: (req) => ("messages" in req ? "/chat/completions" : "/completions")` -/
def getPath (req : LlmRequest) : String :=
  if req.messages.isSome then "/chat/completions" else "/completions"

/-- `endOfStreamSentinel: "[DONE]"` -/
def endOfStreamSentinel : String := "[DONE]"

end OpenAI

/-- A JavaScript value, as far as the wire-payload builder needs to
distinguish them. -/
inductive JsVal where
  | undef
  | vnull
  | vbool (b : Bool)
  | vnum (n : Int)
  | vstr (s : String)
  | varr (l : List String)
  | vmsgs (l : List ChatMessage)
deriving DecidableEq, Repr

/-- A JavaScript object as a partial map from keys to values: `none` means
the key is absent, `some .undef` means the key is present holding
`undefined`.  Key order is immaterial to the properties proved here. -/
def JsObj := String → Option JsVal

namespace OpenAI

/--
```
transformForRequest: (req, meta) => {
  const { modelId, stop_sequences, modelProvider, ...optsToSend } = req
  return {
    ...optsToSend,
    model: modelId,
    user: meta.user_identifier || undefined,
    stop: stop_sequences.length ? stop_sequences : undefined
  }
}
```
`meta.user_identifier` is the string `user_identifier` (the empty string
standing for a falsy value).  Reading `.length` of a `stop_sequences`
that is not an array would raise a `TypeError`; that case is `none`.
-/
def transformForRequest (req : JsObj) (user_identifier : String) : Option JsObj :=
  match req "stop_sequences" with
  | some (.varr stop_sequences) =>
    let optsToSend : JsObj := fun k =>
      if k = "modelId" ∨ k = "stop_sequences" ∨ k = "modelProvider" then none else req k
    some (fun k =>
      if k = "model" then some ((req "modelId").getD .undef)
      else if k = "user" then
        some (if user_identifier = "" then .undef else .vstr user_identifier)
      else if k = "stop" then
        some (if stop_sequences.length = 0 then .undef else .varr stop_sequences)
      else optsToSend k)
  | _ => none

/-- The `delta` object of a streaming choice: a partial chat message whose
`content` key may be absent. -/
structure Delta where
  content : Option String
deriving DecidableEq, Repr

/-- `choices[0]` of a decoded provider event.  Each field is `some`
exactly when the corresponding key is present in the event. -/
structure RespChoice where
  delta : Option Delta := none
  message : Option ChatMessage := none
  text : Option String := none
deriving DecidableEq, Repr

/-- A decoded provider event: `{choices: [...]}`. -/
structure RawResponse where
  choices : List RespChoice
deriving DecidableEq, Repr

/-- JavaScript `x || ""` for an optional string `x`: the empty string when
`x` is absent or empty, `x` itself otherwise. -/
def jsOrEmpty : Option String → String
  | none => ""
  | some s => if s = "" then "" else s

/--
```
transformResponse: (res) => {
  const anyRes = res as any
  if ("delta" in anyRes["choices"][0]) {
    const delta: Partial<ChatMessage> = anyRes["choices"][0]["delta"]
    return delta.content || ""
  }
  if ("message" in anyRes["choices"][0]) {
    const message: ChatMessage = anyRes["choices"][0]["message"]
    return message.content
  }
  return anyRes["choices"][0]["text"]
}
```
Result `none` models the `TypeError` raised when `choices` is empty; the
inner `Option String` is the returned JavaScript value (`none` standing
for `undefined` when the `text` key is absent).
-/
def transformResponse (res : RawResponse) : Option (Option String) :=
  match res.choices with
  | [] => none
  | choice :: _ =>
    some (match choice.delta with
      | some delta => some (jsOrEmpty delta.content)
      | none =>
        match choice.message with
        | some message => some message.content
        | none => choice.text)

end OpenAI

namespace ConfigMgr

/-- The `AuthType` enum: external-session auth or API-key auth. -/
inductive AuthType where
  | External
  | APIKey
deriving DecidableEq, Repr

/-- The `ModelID` enum of the public interface, with the four members the
configuration manager handles. -/
inductive ModelID where
  | GPT3
  | GPT4
  | Together
  | Cohere
deriving DecidableEq, Repr

/-- Modelled from the spec: the public-interface package defining the
`ModelID` string values and `isKnownModel` is not among the repository
sources.  Per the spec, a model string either "is a known logical id" or
is "unrecognized"; this map sends each known logical id string to its
`ModelID` and is modelled with distinct non-empty provider/model
strings. -/
def strToModelID (s : String) : Option ModelID :=
  if s = "openai/gpt3.5" then some .GPT3
  else if s = "openai/gpt4" then some .GPT4
  else if s = "together/gpt-neoxt-20B" then some .Together
  else if s = "cohere/xlarge" then some .Cohere
  else none

/-- `isKnownModel` from the public interface: whether a string is a known
logical model id. -/
def isKnownModel (s : String) : Bool :=
  (strToModelID s).isSome

/-- An external-session credential object (opaque; a present session is a
truthy object). -/
structure Session where
  settingsUrl : Option String := none
deriving DecidableEq, Repr

/-- The `Config` interface: id, auth type, label, handled models, and the
optional credential fields. -/
structure Config where
  id : String
  auth : AuthType
  label : String
  models : List ModelID
  session : Option Session := none
  baseUrl : Option String := none
  apiKey : Option String := none
deriving DecidableEq, Repr

/-- Modelled from the spec: the per-provider caller objects (`openrouter`,
`local`, `modelAPICallers`) live in the llm module index, not among the
sources; the spec distinguishes built-in per-provider callers from "a
generic credentialed caller".  Callers are identified symbolically. -/
inductive Caller where
  | openrouter
  | loc
  | api (m : ModelID)
deriving DecidableEq, Repr

/-- `modelAPICallers`: the built-in per-model caller table. -/
def modelAPICallers (m : ModelID) : Caller := .api m

/-- The `defaultAPILabel` record. -/
def defaultAPILabel : ModelID → String
  | .GPT3 => "OpenAI: GPT-3.5"
  | .GPT4 => "OpenAI: GPT-4"
  | .Together => "Together: GPT NeoXT 20B"
  | .Cohere => "Cohere: Xlarge"

/-- `getCallerForAuth(auth, modelId?)`: external auth uses the openrouter
caller; API-key auth uses the per-model caller when a model id is given
and the generic local caller otherwise. -/
def getCallerForAuth (auth : AuthType) (modelId : Option ModelID) : Caller :=
  match auth with
  | .External => .openrouter
  | .APIKey =>
    match modelId with
    | some m => modelAPICallers m
    | none => .loc

/-- `getLabelForAuth(auth, modelId?)`. -/
def getLabelForAuth (auth : AuthType) (modelId : Option ModelID) : String :=
  match auth with
  | .External => "OpenRouter"
  | .APIKey =>
    match modelId with
    | some m => defaultAPILabel m
    | none => "Local"

/-- `ConfigManager.init(auth, modelId?)`: builds a fresh config (the
source also computes the caller for the auth, unused).  `uuidv4()` is the
explicit `uuid` parameter. -/
def init (auth : AuthType) (modelId : Option ModelID) (uuid : String) : Config :=
  let label := getLabelForAuth auth modelId
  match auth with
  | .External =>
    { id := uuid, auth := .External, label := label,
      models := [.GPT3, .GPT4] }
  | .APIKey =>
    { id := uuid, auth := .APIKey, label := label,
      models := match modelId with | some m => [m] | none => [] }

/-- The storage state behind a `ConfigManager` (the `BaseManager` store,
its by-auth index, the model-handler map and the default-config id).
Modelled from the spec: the `BaseManager` persistence base class is not
among the sources; the spec treats configuration storage as a lookup
collaborator, modelled as key-value maps. -/
structure CMState where
  configs : String → Option Config
  byAuth : AuthType → List String
  modelHandlers : ModelID → Option String
  defaultId : Option String

/-- `ConfigManager.filter({auth, model})`: configs indexed under `auth`,
narrowed by the model criterion — `some none` is the `model: null` case
(configs with no models), `some (some m)` keeps configs handling `m`, and
`none` applies no model filter. -/
def filterConfigs (s : CMState) (auth : AuthType)
    (model : Option (Option ModelID)) : List Config :=
  let ids := s.byAuth auth
  let configs := ids.filterMap s.configs
  configs.filter (fun c =>
    match model with
    | some none => c.models.isEmpty
    | some (some m) => c.models.contains m
    | none => true)

/-- `ConfigManager.forAuthAndModel(auth, modelId?)`: first matching
config; with no model id, API-key auth looks for configs with no models
(the local-model special case). -/
def forAuthAndModel (s : CMState) (auth : AuthType)
    (modelId : Option ModelID) : Option Config :=
  match modelId with
  | none =>
    if auth = .APIKey then (filterConfigs s auth (some none)).head?
    else (filterConfigs s auth none).head?
  | some m => (filterConfigs s auth (some (some m))).head?

/-- `ConfigManager.getOrInit(authType, modelId?)`: an existing matching
config, or a freshly initialized one. -/
def getOrInit (s : CMState) (auth : AuthType) (modelId : Option ModelID)
    (uuid : String) : Config :=
  match forAuthAndModel s auth modelId with
  | some c => c
  | none => init auth modelId uuid

/-- `{...defaults, ...config}` in `forModel`: the stored config is a full
record, so each of its fields overrides the init defaults (whose only
keys are the required ones, which the stored config also carries). -/
def mergeConfig (_defaults config : Config) : Config :=
  { id := config.id, auth := config.auth, label := config.label,
    models := config.models, session := config.session,
    baseUrl := config.baseUrl, apiKey := config.apiKey }

/-- `ConfigManager.forModel(modelId)`: follow the model-handler pointer to
a stored config (layering it over init defaults); on a dangling pointer,
remove it and fall back to `getOrInit(APIKey, modelId)`.  Returns the
resolved config and the possibly-updated state. -/
def forModel (s : CMState) (modelId : ModelID) (uuid : String) :
    Config × CMState :=
  match s.modelHandlers modelId with
  | some configId =>
    match s.configs configId with
    | some config =>
      (mergeConfig (init config.auth (some modelId) uuid) config, s)
    | none =>
      let s2 : CMState :=
        { s with modelHandlers := fun m =>
            if m = modelId then none else s.modelHandlers m }
      (getOrInit s2 .APIKey (some modelId) uuid, s2)
  | none => (getOrInit s .APIKey (some modelId) uuid, s)

/-- JavaScript `!!x` for an optional string: present and non-empty. -/
def truthyStr : Option String → Bool
  | none => false
  | some s => !(s = "")

/-- `ConfigManager.isCredentialed(config)`: external auth needs a session;
API-key auth needs an apiKey when the config handles models, and nothing
otherwise (the local-model case). -/
def isCredentialed (config : Config) : Bool :=
  match config.auth with
  | .External => config.session.isSome
  | .APIKey =>
    if config.models.length ≠ 0 then truthyStr config.apiKey else true

/-- `ConfigManager.getDefault()`: the stored default config if its id
resolves; otherwise (removing a dangling id) `getOrInit(External)`. -/
def getDefault (s : CMState) (uuid : String) : Config × CMState :=
  match s.defaultId with
  | some id =>
    match s.configs id with
    | some config => (config, s)
    | none =>
      let s2 : CMState := { s with defaultId := none }
      (getOrInit s2 .External none uuid, s2)
  | none => (getOrInit s .External none uuid, s)

/-- `ConfigManager.forModelWithDefault(model?)`: absent (or empty — the
source tests `!model`, and the empty string is falsy) means the default
config; a known model id goes through `forModel`; anything else is the
custom-model path `getOrInit(APIKey)`. -/
def forModelWithDefault (s : CMState) (model : Option String)
    (uuid : String) : Config × CMState :=
  match model with
  | none => getDefault s uuid
  | some str =>
    if str = "" then getDefault s uuid
    else
      match strToModelID str with
      | some m => forModel s m uuid
      | none => (getOrInit s .APIKey none uuid, s)

/-- `ConfigManager.getCurrentModel(config)`: the single handled model, or
`undefined` when the config handles several (or none). -/
def getCurrentModel (config : Config) : Option ModelID :=
  if config.models.length > 1 then none else config.models.head?

/-- `ConfigManager.getCaller(config)`. -/
def getCaller (config : Config) : Caller :=
  getCallerForAuth config.auth (getCurrentModel config)

/-- Integrity of the by-auth index maintained by `save`: every config
reachable from the index bucket of an auth type has that auth type. -/
def WFIndex (s : CMState) : Prop :=
  ∀ a id c, id ∈ s.byAuth a → s.configs id = some c → c.auth = a

/-- A completely empty configuration store. -/
def emptyCM : CMState :=
  { configs := fun _ => none, byAuth := fun _ => [],
    modelHandlers := fun _ => none, defaultId := none }

end ConfigMgr

namespace TxnMgr

/-- The runtime value passed as `input`: either not an object at all
(`typeof input !== "object"`), or an object whose optional `prompt` and
`messages` keys may each be present or absent. -/
inductive Input where
  | notObject
  | obj (prompt : Option String) (messages : Option (List ChatMessage))
deriving DecidableEq, Repr

/-- Modelled from the spec: `isPromptInput` belongs to the public
interface package, not to the sources.  Per the spec the prompt form is
"a single prompt string"; an object is prompt-form input when its
`prompt` key is present. -/
def isPromptInput : Input → Bool
  | .notObject => false
  | .obj prompt _ => prompt.isSome

/-- Modelled from the spec: `isMessagesInput` belongs to the public
interface package, not to the sources.  Per the spec the messages form is
"an ordered sequence of role-tagged messages"; an object is messages-form
input when its `messages` key is present. -/
def isMessagesInput : Input → Bool
  | .notObject => false
  | .obj _ messages => messages.isSome

/-- The origin of a transaction (opaque to these claims). -/
structure OriginData where
  host : String
deriving DecidableEq, Repr

/-- One inferred output of a completed transaction (text, message, or
media reference). -/
inductive Output where
  | text (t : String)
  | message (m : ChatMessage)
  | media (uri : String) (mimeType : String)
deriving DecidableEq, Repr

/-- The option bag passed to `TransactionManager.init`
(`CompletionOptions`/`MediaOptions`/`ThreeDOptions` fields it reads).
Numbers are modelled as integers; each field is `some` exactly when the
caller supplied it. -/
structure TxnOptions where
  model : Option String := none
  numOutputs : Option Int := none
  temperature : Option Int := none
  maxTokens : Option Int := none
  stopSequences : Option (List String) := none
  mimeType : Option String := none
  numInferenceSteps : Option Int := none
deriving DecidableEq, Repr

/-- The `Transaction` record.  `numOutputs` is `Option` because stored
records predating the field may lack it (`_batchFetch` backfills it);
`init` always sets it. -/
structure Transaction where
  id : String
  timestamp : Nat
  origin : OriginData
  input : Input
  numOutputs : Option Int
  model : Option String := none
  routedModel : Option String := none
  temperature : Option Int := none
  maxTokens : Option Int := none
  stopSequences : Option (List String) := none
  numInferenceSteps : Option Int := none
  mimeType : Option String := none
  outputs : Option (List Output) := none
  error : Option String := none
deriving DecidableEq, Repr

/-- `TransactionManager._validateInput(input)`: throws `"Invalid input"`
when the input is not an object, or is neither prompt-form nor
messages-form. -/
def validateInput (input : Input) : Except String Unit :=
  if (match input with | .notObject => true | .obj _ _ => false)
      || (!isPromptInput input && !isMessagesInput input) then
    .error "Invalid input"
  else
    .ok ()

/-- `TransactionManager.init(input, origin, options)`: validates the
input, then builds a fresh transaction from the options, defaulting
`numOutputs` to 1 (the JavaScript default applies only when the option is
absent).  `uuidv4()` and `Date.now()` are the explicit `uuid` and `now`
parameters. -/
def init (input : Input) (origin : OriginData) (options : TxnOptions)
    (uuid : String) (now : Nat) : Except String Transaction := do
  let _ ← validateInput input
  pure {
    id := uuid,
    origin := origin,
    timestamp := now,
    input := input,
    model := options.model,
    numOutputs := some (options.numOutputs.getD 1),
    temperature := options.temperature,
    maxTokens := options.maxTokens,
    stopSequences := options.stopSequences,
    numInferenceSteps := options.numInferenceSteps,
    mimeType := options.mimeType }

/-- `TransactionManager._batchFetch(ids)`: fetches each id from the store
and backfills a missing `numOutputs` with 1.  A missing record would make
the source read a property of `undefined`; that case is `none`. -/
def batchFetch (ids : List String) (store : String → Option Transaction) :
    Option (List Transaction) :=
  ids.mapM (fun id =>
    (store id).map (fun raw =>
      if raw.numOutputs.isNone then { raw with numOutputs := some 1 } else raw))

end TxnMgr

/-- C1: the OpenAI descriptor picks a chat model (`gpt-3.5-turbo` for
quality "low", `gpt-4` otherwise) exactly when the request has
message-array input, and a completion model (`text-curie-001` for "low",
`text-davinci-003` otherwise) otherwise; `getPath` agrees, returning
"/chat/completions" exactly when the request contains messages and
"/completions" otherwise. -/
theorem C1_openai_model_and_path_selection (q : String) (req : OpenAI.LlmRequest) :
    (req.messages.isSome = true →
      OpenAI.getModelId q req = (if q = "low" then "gpt-3.5-turbo" else "gpt-4"))
    ∧ (req.messages.isSome = false →
      OpenAI.getModelId q req = (if q = "low" then "text-curie-001" else "text-davinci-003"))
    ∧ (OpenAI.getPath req = "/chat/completions" ↔ req.messages.isSome = true)
    ∧ (OpenAI.getPath req = "/completions" ↔ req.messages.isSome = false) := by
  refine ⟨?_, ?_, ?_, ?_⟩ <;>
    cases hm : req.messages <;>
      by_cases hq : q = "low" <;>
        simp [OpenAI.getModelId, OpenAI.getPath, OpenAI.chatModelId,
          OpenAI.completionModelId, OpenAI.OpenAIModelId.str, hm, hq]

/-- Witness for C1 at concrete requests: a chat-form request at quality
"low" resolves to `gpt-3.5-turbo`, and a prompt-form request at quality
"high" has path "/completions". -/
theorem C1_openai_model_and_path_selection_witness :
    OpenAI.getModelId "low" { messages := some [{ role := "user", content := "hi" }] }
      = "gpt-3.5-turbo"
    ∧ OpenAI.getPath { prompt := some "hello" } = "/completions" :=
  ⟨(C1_openai_model_and_path_selection "low"
      { messages := some [{ role := "user", content := "hi" }] }).1 rfl,
   (C1_openai_model_and_path_selection "high" { prompt := some "hello" }).2.2.2.mpr rfl⟩

/-- C2: `transformResponse` disambiguates a decoded event by key presence
in priority order: a present `delta` key wins (yielding its `content`, the
empty string when that is absent or empty), then a present `message` key
(yielding its `content`), and otherwise the choice's `text` field is
returned. -/
theorem C2_transform_response_priority (choice : OpenAI.RespChoice)
    (rest : List OpenAI.RespChoice) :
    (∀ delta, choice.delta = some delta →
      OpenAI.transformResponse ⟨choice :: rest⟩
        = some (some (delta.content.getD "")))
    ∧ (choice.delta = none → ∀ message, choice.message = some message →
      OpenAI.transformResponse ⟨choice :: rest⟩ = some (some message.content))
    ∧ (choice.delta = none → choice.message = none →
      OpenAI.transformResponse ⟨choice :: rest⟩ = some choice.text) := by
  refine ⟨?_, ?_, ?_⟩
  · intro delta hd
    have : OpenAI.jsOrEmpty delta.content = delta.content.getD "" := by
      cases hc : delta.content with
      | none => rfl
      | some s => by_cases hs : s = "" <;> simp [OpenAI.jsOrEmpty, hs]
    simp [OpenAI.transformResponse, hd, this]
  · intro hd message hmsg
    simp [OpenAI.transformResponse, hd, hmsg]
  · intro hd hmsg
    simp [OpenAI.transformResponse, hd, hmsg]

/-- Witness for C2: a delta event with empty content yields `""`, a
message event yields its content, and a text event yields its text. -/
theorem C2_transform_response_priority_witness :
    OpenAI.transformResponse ⟨[{ delta := some ⟨none⟩ }]⟩ = some (some "")
    ∧ OpenAI.transformResponse ⟨[{ message := some ⟨"assistant", "hi"⟩ }]⟩
        = some (some "hi")
    ∧ OpenAI.transformResponse ⟨[{ text := some "plain" }]⟩ = some (some "plain") :=
  ⟨(C2_transform_response_priority { delta := some ⟨none⟩ } []).1 ⟨none⟩ rfl,
   (C2_transform_response_priority { message := some ⟨"assistant", "hi"⟩ } []).2.1
     rfl ⟨"assistant", "hi"⟩ rfl,
   (C2_transform_response_priority { text := some "plain" } []).2.2 rfl rfl⟩

/-- C3: in the wire payload, `stop` is `undefined` when the request's
`stop_sequences` is the empty sequence, and equals `stop_sequences`
itself when it is non-empty. -/
theorem C3_stop_sequences_empty_not_sent (req : JsObj) (user_identifier : String)
    (stop_sequences : List String)
    (h : req "stop_sequences" = some (JsVal.varr stop_sequences)) :
    ∃ payload, OpenAI.transformForRequest req user_identifier = some payload
      ∧ (stop_sequences = [] → payload "stop" = some JsVal.undef)
      ∧ (stop_sequences ≠ [] →
          payload "stop" = some (JsVal.varr stop_sequences)) := by
  unfold OpenAI.transformForRequest
  rw [h]
  refine ⟨_, rfl, ?_, ?_⟩
  · intro he
    subst he
    rfl
  · intro hne
    have hlen : stop_sequences.length ≠ 0 := by
      simpa [List.length_eq_zero] using hne
    simp [hlen]

/-- Witness for C3: with empty `stop_sequences` the payload's `stop` is
`undefined`; with `["\n"]` it is the sequence itself. -/
theorem C3_stop_sequences_empty_not_sent_witness :
    (∃ payload,
      OpenAI.transformForRequest
          (fun k => if k = "stop_sequences" then some (JsVal.varr []) else none) "u"
        = some payload ∧ payload "stop" = some JsVal.undef)
    ∧ (∃ payload,
      OpenAI.transformForRequest
          (fun k => if k = "stop_sequences" then some (JsVal.varr ["end"]) else none) "u"
        = some payload ∧ payload "stop" = some (JsVal.varr ["end"])) := by
  constructor
  · obtain ⟨p, hp, he, -⟩ :=
      C3_stop_sequences_empty_not_sent
        (fun k => if k = "stop_sequences" then some (JsVal.varr []) else none) "u" [] rfl
    exact ⟨p, hp, he rfl⟩
  · obtain ⟨p, hp, -, hne⟩ :=
      C3_stop_sequences_empty_not_sent
        (fun k => if k = "stop_sequences" then some (JsVal.varr ["end"]) else none) "u"
        ["end"] rfl
    exact ⟨p, hp, hne (by simp)⟩

/-- C4: the wire payload has no `modelId` and no `modelProvider` key; the
concrete model is carried under the key `model` (set from the request's
`modelId`), every request field other than the consumed routing fields and
the freshly written `model`/`user`/`stop` keys is passed through
unchanged, and `user` equals the meta `user_identifier` when it is
non-empty and `undefined` otherwise. -/
theorem C4_payload_drops_routing_fields (req : JsObj) (user_identifier : String)
    (stop_sequences : List String)
    (h : req "stop_sequences" = some (JsVal.varr stop_sequences)) :
    ∃ payload, OpenAI.transformForRequest req user_identifier = some payload
      ∧ payload "modelId" = none
      ∧ payload "modelProvider" = none
      ∧ payload "model" = some ((req "modelId").getD JsVal.undef)
      ∧ payload "user"
          = some (if user_identifier = "" then JsVal.undef
                  else JsVal.vstr user_identifier)
      ∧ ∀ k, k ≠ "modelId" → k ≠ "stop_sequences" → k ≠ "modelProvider" →
          k ≠ "model" → k ≠ "user" → k ≠ "stop" → payload k = req k := by
  unfold OpenAI.transformForRequest
  rw [h]
  refine ⟨_, rfl, rfl, rfl, rfl, rfl, ?_⟩
  intro k h1 h2 h3 h4 h5 h6
  simp [h1, h2, h3, h4, h5, h6]

/-- Witness for C4 at a concrete request carrying `modelId`,
`modelProvider`, a prompt and a temperature: routing keys are gone, the
model and prompt and temperature survive, and the empty `user_identifier`
becomes `undefined`. -/
theorem C4_payload_drops_routing_fields_witness :
    ∃ payload,
      OpenAI.transformForRequest
          (fun k =>
            if k = "modelId" then some (JsVal.vstr "text-davinci-003")
            else if k = "modelProvider" then some (JsVal.vstr "openai")
            else if k = "stop_sequences" then some (JsVal.varr [])
            else if k = "prompt" then some (JsVal.vstr "Hello")
            else if k = "temperature" then some (JsVal.vnum 1)
            else none) ""
        = some payload
      ∧ payload "modelId" = none
      ∧ payload "modelProvider" = none
      ∧ payload "model" = some (JsVal.vstr "text-davinci-003")
      ∧ payload "user" = some JsVal.undef
      ∧ payload "prompt" = some (JsVal.vstr "Hello")
      ∧ payload "temperature" = some (JsVal.vnum 1) := by
  obtain ⟨p, hp, h1, h2, h3, h4, h5⟩ :=
    C4_payload_drops_routing_fields
      (fun k =>
        if k = "modelId" then some (JsVal.vstr "text-davinci-003")
        else if k = "modelProvider" then some (JsVal.vstr "openai")
        else if k = "stop_sequences" then some (JsVal.varr [])
        else if k = "prompt" then some (JsVal.vstr "Hello")
        else if k = "temperature" then some (JsVal.vnum 1)
        else none) "" [] rfl
  refine ⟨p, hp, h1, h2, ?_, ?_, ?_, ?_⟩
  · simpa using h3
  · simpa using h4
  · have := h5 "prompt" (by decide) (by decide) (by decide) (by decide)
      (by decide) (by decide)
    simpa using this
  · have := h5 "temperature" (by decide) (by decide) (by decide) (by decide)
      (by decide) (by decide)
    simpa using this

/-- Resolving with fresh uuids only changes the generated config id, never
the caller or the current model. -/
theorem getOrInit_stable (s : ConfigMgr.CMState) (auth : ConfigMgr.AuthType)
    (mid : Option ConfigMgr.ModelID) (u1 u2 : String) :
    ConfigMgr.getCaller (ConfigMgr.getOrInit s auth mid u1)
      = ConfigMgr.getCaller (ConfigMgr.getOrInit s auth mid u2)
    ∧ ConfigMgr.getCurrentModel (ConfigMgr.getOrInit s auth mid u1)
      = ConfigMgr.getCurrentModel (ConfigMgr.getOrInit s auth mid u2) := by
  unfold ConfigMgr.getOrInit
  cases ConfigMgr.forAuthAndModel s auth mid with
  | some c => exact ⟨rfl, rfl⟩
  | none => cases auth <;> cases mid <;> exact ⟨rfl, rfl⟩

/-- C5: resolution is idempotent.  `getModelId` is a pure function of the
quality and request, and two successive `forModel` calls for the same
`ModelID` (threading the state, with arbitrary fresh uuids) resolve to
configs with the same caller and the same current model. -/
theorem C5_resolution_idempotent :
    (∀ (q q2 : String) (r r2 : OpenAI.LlmRequest), q = q2 → r = r2 →
      OpenAI.getModelId q r = OpenAI.getModelId q2 r2)
    ∧ ∀ (s : ConfigMgr.CMState) (m : ConfigMgr.ModelID) (u1 u2 : String),
        ConfigMgr.getCaller (ConfigMgr.forModel s m u1).1
          = ConfigMgr.getCaller
              (ConfigMgr.forModel (ConfigMgr.forModel s m u1).2 m u2).1
        ∧ ConfigMgr.getCurrentModel (ConfigMgr.forModel s m u1).1
          = ConfigMgr.getCurrentModel
              (ConfigMgr.forModel (ConfigMgr.forModel s m u1).2 m u2).1 := by
  constructor
  · intro q q2 r r2 hq hr
    rw [hq, hr]
  · intro s m u1 u2
    unfold ConfigMgr.forModel
    cases hh : s.modelHandlers m with
    | some configId =>
      cases hc : s.configs configId with
      | some config =>
        simp only [hh, hc]
        exact ⟨rfl, rfl⟩
      | none =>
        simp only [hh, hc, if_pos rfl]
        exact getOrInit_stable _ .APIKey (some m) u1 u2
    | none =>
      simp only [hh]
      exact getOrInit_stable _ .APIKey (some m) u1 u2

/-- Witness for C5: concrete double resolution of GPT4 on the empty
store yields the same caller both times. -/
theorem C5_resolution_idempotent_witness :
    OpenAI.getModelId "max" { prompt := some "p" }
      = OpenAI.getModelId "max" { prompt := some "p" }
    ∧ ConfigMgr.getCaller (ConfigMgr.forModel ConfigMgr.emptyCM .GPT4 "u1").1
      = ConfigMgr.getCaller
          (ConfigMgr.forModel
            (ConfigMgr.forModel ConfigMgr.emptyCM .GPT4 "u1").2 .GPT4 "u2").1 :=
  ⟨C5_resolution_idempotent.1 "max" "max" { prompt := some "p" }
      { prompt := some "p" } rfl rfl,
   (C5_resolution_idempotent.2 ConfigMgr.emptyCM .GPT4 "u1" "u2").1⟩

/-- C6: `forModelWithDefault` always yields a config — there is no
error path in it (the embedding is total).  With the model absent it
returns the stored default config when the stored default id resolves;
when no default id is stored, or the stored id resolves to no config, it
falls back to `getOrInit(External)`.  A known model id goes through
`forModel` and an unknown one through `getOrInit(APIKey)`. -/
theorem C6_forModelWithDefault_total (s : ConfigMgr.CMState) (uuid : String) :
    ((ConfigMgr.forModelWithDefault s none uuid).1
        = (ConfigMgr.getDefault s uuid).1)
    ∧ (∀ id c, s.defaultId = some id → s.configs id = some c →
        (ConfigMgr.getDefault s uuid).1 = c)
    ∧ (s.defaultId = none →
        (ConfigMgr.getDefault s uuid).1
          = ConfigMgr.getOrInit s .External none uuid)
    ∧ (∀ id, s.defaultId = some id → s.configs id = none →
        (ConfigMgr.getDefault s uuid).1
          = ConfigMgr.getOrInit s .External none uuid)
    ∧ (∀ str m, str ≠ "" → ConfigMgr.strToModelID str = some m →
        ConfigMgr.forModelWithDefault s (some str) uuid
          = ConfigMgr.forModel s m uuid)
    ∧ (∀ str, str ≠ "" → ConfigMgr.strToModelID str = none →
        (ConfigMgr.forModelWithDefault s (some str) uuid).1
          = ConfigMgr.getOrInit s .APIKey none uuid) := by
  refine ⟨rfl, ?_, ?_, ?_, ?_, ?_⟩
  · intro id c hid hc
    simp [ConfigMgr.getDefault, hid, hc]
  · intro hnone
    simp [ConfigMgr.getDefault, hnone]
  · intro id hid hc
    simp only [ConfigMgr.getDefault, hid, hc]
    rfl
  · intro str m hne hm
    simp [ConfigMgr.forModelWithDefault, hne, hm]
  · intro str hne hm
    simp [ConfigMgr.forModelWithDefault, hne, hm]

/-- Witness for C6: on a store whose default id points at a stored
external config, resolving with no model returns that config; on the
empty store it falls back to a fresh external config; a known and an
unknown model string take the `forModel` and `getOrInit(APIKey)` paths. -/
theorem C6_forModelWithDefault_total_witness :
    (ConfigMgr.getDefault
        { configs := fun i => if i = "cfg1"
            then some { id := "cfg1", auth := .External, label := "OpenRouter",
                        models := [.GPT3, .GPT4], session := some {} }
            else none,
          byAuth := fun _ => ["cfg1"], modelHandlers := fun _ => none,
          defaultId := some "cfg1" } "u").1
      = { id := "cfg1", auth := .External, label := "OpenRouter",
          models := [.GPT3, .GPT4], session := some {} }
    ∧ (ConfigMgr.getDefault ConfigMgr.emptyCM "u").1
        = ConfigMgr.getOrInit ConfigMgr.emptyCM .External none "u"
    ∧ ConfigMgr.forModelWithDefault ConfigMgr.emptyCM (some "openai/gpt4") "u"
        = ConfigMgr.forModel ConfigMgr.emptyCM .GPT4 "u"
    ∧ (ConfigMgr.forModelWithDefault ConfigMgr.emptyCM (some "acme/custom") "u").1
        = ConfigMgr.getOrInit ConfigMgr.emptyCM .APIKey none "u" :=
  ⟨(C6_forModelWithDefault_total _ "u").2.1 "cfg1" _ rfl (by decide),
   (C6_forModelWithDefault_total ConfigMgr.emptyCM "u").2.2.1 rfl,
   (C6_forModelWithDefault_total ConfigMgr.emptyCM "u").2.2.2.2.1
     "openai/gpt4" .GPT4 (by decide) (by decide),
   (C6_forModelWithDefault_total ConfigMgr.emptyCM "u").2.2.2.2.2
     "acme/custom" (by decide) (by decide)⟩

/-- C7 (amended): for every NON-EMPTY model string that is not a known
`ModelID`, `forModelWithDefault` resolves — on a store whose by-auth
index is intact — to an API-key-auth config with an empty models list,
and the caller for such a config is the generic local caller, not a
built-in per-provider one.  (The empty string is also not a known
`ModelID`, but the source treats it as an absent model and takes the
default path instead; see the counterexample.) -/
theorem C7_custom_model_generic_caller (s : ConfigMgr.CMState)
    (uuid str : String) (hne : str ≠ "")
    (hunk : ConfigMgr.strToModelID str = none)
    (hwf : ConfigMgr.WFIndex s) :
    (ConfigMgr.forModelWithDefault s (some str) uuid).1.auth
        = ConfigMgr.AuthType.APIKey
    ∧ (ConfigMgr.forModelWithDefault s (some str) uuid).1.models = []
    ∧ ConfigMgr.getCaller (ConfigMgr.forModelWithDefault s (some str) uuid).1
        = ConfigMgr.Caller.loc := by
  have hres : (ConfigMgr.forModelWithDefault s (some str) uuid).1
      = ConfigMgr.getOrInit s .APIKey none uuid := by
    simp [ConfigMgr.forModelWithDefault, hne, hunk]
  rw [hres]
  unfold ConfigMgr.getOrInit
  cases hfa : ConfigMgr.forAuthAndModel s .APIKey none with
  | none => exact ⟨rfl, rfl, rfl⟩
  | some c =>
    have hfa2 : (ConfigMgr.filterConfigs s .APIKey (some none)).head? = some c := by
      simpa [ConfigMgr.forAuthAndModel] using hfa
    have hmem : c ∈ ConfigMgr.filterConfigs s .APIKey (some none) := by
      cases hl : ConfigMgr.filterConfigs s .APIKey (some none) with
      | nil => rw [hl] at hfa2; simp at hfa2
      | cons c0 t =>
        rw [hl] at hfa2
        simp only [List.head?_cons, Option.some_inj] at hfa2
        subst hfa2
        exact List.mem_cons_self _ _
    have hx : (∃ a ∈ s.byAuth ConfigMgr.AuthType.APIKey,
        s.configs a = some c) ∧ c.models = [] := by
      simpa [ConfigMgr.filterConfigs, List.mem_filter, List.mem_filterMap,
        List.isEmpty_iff] using hmem
    have hmodels : c.models = [] := hx.2
    have hauth : c.auth = .APIKey := by
      obtain ⟨id, hid, hcfg⟩ := hx.1
      exact hwf .APIKey id c hid hcfg
    refine ⟨hauth, hmodels, ?_⟩
    simp [ConfigMgr.getCaller, ConfigMgr.getCallerForAuth,
      ConfigMgr.getCurrentModel, hauth, hmodels]

/-- Witness for C7 (amended): resolving the unknown non-empty string
"acme/custom" on the empty store yields the API-key local-model config
and the generic local caller. -/
theorem C7_custom_model_generic_caller_witness :
    (ConfigMgr.forModelWithDefault ConfigMgr.emptyCM (some "acme/custom") "u7").1.auth
        = ConfigMgr.AuthType.APIKey
    ∧ (ConfigMgr.forModelWithDefault ConfigMgr.emptyCM (some "acme/custom") "u7").1.models
        = []
    ∧ ConfigMgr.getCaller
        (ConfigMgr.forModelWithDefault ConfigMgr.emptyCM (some "acme/custom") "u7").1
        = ConfigMgr.Caller.loc :=
  C7_custom_model_generic_caller ConfigMgr.emptyCM "u7" "acme/custom"
    (by decide) (by decide)
    (by intro a id c h; simp [ConfigMgr.emptyCM] at h)

/-- Counterexample to C7 as stated: the empty string is a model string
that is not a known `ModelID`, yet `forModelWithDefault` treats it as an
absent model (`!model` is true for `""`) and returns the default config —
here an external-auth config with a non-empty models list, whose caller
is openrouter, not the generic local caller. -/
theorem C7_custom_model_generic_caller_counterexample :
    ConfigMgr.isKnownModel "" = false
    ∧ (ConfigMgr.forModelWithDefault ConfigMgr.emptyCM (some "") "uuid-1").1.auth
        = ConfigMgr.AuthType.External
    ∧ (ConfigMgr.forModelWithDefault ConfigMgr.emptyCM (some "") "uuid-1").1.models
        = [ConfigMgr.ModelID.GPT3, ConfigMgr.ModelID.GPT4]
    ∧ ConfigMgr.getCaller
        (ConfigMgr.forModelWithDefault ConfigMgr.emptyCM (some "") "uuid-1").1
        = ConfigMgr.Caller.openrouter := by
  refine ⟨rfl, rfl, rfl, rfl⟩

/-- C10: `isCredentialed` holds for an external-auth config exactly when
it has a session; for an API-key-auth config handling models exactly when
it has a (JavaScript-truthy, i.e. non-empty) apiKey; and unconditionally
for an API-key-auth config with an empty models list. -/
theorem C10_isCredentialed_cases (config : ConfigMgr.Config) :
    (config.auth = .External →
      (ConfigMgr.isCredentialed config = true ↔ config.session.isSome = true))
    ∧ (config.auth = .APIKey → config.models ≠ [] →
      (ConfigMgr.isCredentialed config = true
        ↔ ConfigMgr.truthyStr config.apiKey = true))
    ∧ (config.auth = .APIKey → config.models = [] →
      ConfigMgr.isCredentialed config = true) := by
  refine ⟨?_, ?_, ?_⟩
  · intro h
    simp [ConfigMgr.isCredentialed, h]
  · intro h hm
    have hlen : config.models.length ≠ 0 := by
      simpa [List.length_eq_zero] using hm
    simp [ConfigMgr.isCredentialed, h, hlen]
  · intro h hm
    simp [ConfigMgr.isCredentialed, h, hm]

/-- Witness for C10 at concrete configs: an external config with a
session is credentialed, an API-key config handling GPT4 without a key is
not, and the local API-key config with no models is credentialed. -/
theorem C10_isCredentialed_cases_witness :
    ConfigMgr.isCredentialed
      { id := "a", auth := .External, label := "OpenRouter",
        models := [.GPT3, .GPT4], session := some {} } = true
    ∧ (ConfigMgr.isCredentialed
        { id := "b", auth := .APIKey, label := "OpenAI: GPT-4",
          models := [.GPT4] } = true
       ↔ ConfigMgr.truthyStr (none : Option String) = true)
    ∧ ConfigMgr.isCredentialed
        { id := "c", auth := .APIKey, label := "Local", models := [] } = true :=
  ⟨((C10_isCredentialed_cases _).1 rfl).mpr rfl,
   (C10_isCredentialed_cases _).2.1 rfl (by decide),
   (C10_isCredentialed_cases _).2.2 rfl rfl⟩

/-- C8 (amended): `TransactionManager.init` raises "Invalid input"
exactly when the input is not an object or carries neither the prompt
form nor the messages form; any input carrying at least one of the two
forms — including one carrying both forms at once — is accepted.  (The
validator only requires at least one form; it does not reject an input
carrying both, see the counterexample.) -/
theorem C8_init_validation (input : TxnMgr.Input) (origin : TxnMgr.OriginData)
    (options : TxnMgr.TxnOptions) (uuid : String) (now : Nat) :
    (TxnMgr.init input origin options uuid now = Except.error "Invalid input"
      ↔ (input = TxnMgr.Input.notObject
          ∨ (TxnMgr.isPromptInput input = false
             ∧ TxnMgr.isMessagesInput input = false)))
    ∧ (∀ prompt messages, input = TxnMgr.Input.obj prompt messages →
        (prompt.isSome = true ∨ messages.isSome = true) →
        (TxnMgr.init input origin options uuid now).isOk = true) := by
  constructor
  · cases input with
    | notObject =>
      simp [TxnMgr.init, TxnMgr.validateInput]
    | obj prompt messages =>
      cases prompt <;> cases messages <;>
        simp [TxnMgr.init, TxnMgr.validateInput, TxnMgr.isPromptInput,
          TxnMgr.isMessagesInput]
  · intro prompt messages hin hsome
    subst hin
    rcases hsome with hp | hm
    · rcases Option.isSome_iff_exists.mp hp with ⟨p, rfl⟩
      simp [TxnMgr.init, TxnMgr.validateInput, TxnMgr.isPromptInput,
        TxnMgr.isMessagesInput, Except.isOk, Except.toBool]
    · rcases Option.isSome_iff_exists.mp hm with ⟨m, rfl⟩
      simp [TxnMgr.init, TxnMgr.validateInput, TxnMgr.isPromptInput,
        TxnMgr.isMessagesInput, Except.isOk, Except.toBool]

/-- Witness for C8: a prompt-only input is accepted, and a raw non-object
input is rejected with "Invalid input". -/
theorem C8_init_validation_witness :
    (TxnMgr.init (TxnMgr.Input.obj (some "Hello") none)
        { host := "https://example.com" } {} "id-0" 0).isOk = true
    ∧ TxnMgr.init TxnMgr.Input.notObject
        { host := "https://example.com" } {} "id-0" 0
        = Except.error "Invalid input" :=
  ⟨(C8_init_validation (TxnMgr.Input.obj (some "Hello") none)
      { host := "https://example.com" } {} "id-0" 0).2
      (some "Hello") none rfl (Or.inl rfl),
   (C8_init_validation TxnMgr.Input.notObject
      { host := "https://example.com" } {} "id-0" 0).1.mpr (Or.inl rfl)⟩

/-- Counterexample to C8 as stated: an input carrying BOTH the prompt
form and the messages form at once is accepted by `init`, not
rejected. -/
theorem C8_init_validation_counterexample :
    (TxnMgr.init
        (TxnMgr.Input.obj (some "hi") (some [{ role := "user", content := "hey" }]))
        { host := "https://example.com" } {} "id-1" 0).isOk = true := by
  rfl

/-- Backfilling `numOutputs` always leaves it defined. -/
theorem backfill_numOutputs_isSome (raw : TxnMgr.Transaction) :
    ((if raw.numOutputs.isNone
        then { raw with numOutputs := some 1 } else raw).numOutputs).isSome
      = true := by
  cases h : raw.numOutputs <;> simp [h]

/-- C9 (amended): every transaction produced by `init` has `numOutputs`
equal to the options' value when supplied and 1 when omitted — hence a
positive integer whenever the supplied value is positive (in particular
when omitted) — and carries no outputs and no error; every transaction
returned by `_batchFetch` has `numOutputs` defined (backfilled to 1 for
stored records that lack it).  (As stated the claim fails: `init` does
not force positivity when the options carry a non-positive `numOutputs`,
see the counterexample.) -/
theorem C9_numOutputs_invariant :
    (∀ (input : TxnMgr.Input) (origin : TxnMgr.OriginData)
        (options : TxnMgr.TxnOptions) (uuid : String) (now : Nat)
        (txn : TxnMgr.Transaction),
      TxnMgr.init input origin options uuid now = Except.ok txn →
        txn.numOutputs = some (options.numOutputs.getD 1)
        ∧ (options.numOutputs = none → txn.numOutputs = some 1)
        ∧ ((∀ n, options.numOutputs = some n → 0 < n) →
            ∃ k, txn.numOutputs = some k ∧ 0 < k)
        ∧ txn.outputs = none ∧ txn.error = none)
    ∧ (∀ (ids : List String) (store : String → Option TxnMgr.Transaction)
        (l : List TxnMgr.Transaction),
      TxnMgr.batchFetch ids store = some l →
        ∀ txn ∈ l, txn.numOutputs.isSome = true) := by
  constructor
  · intro input origin options uuid now txn h
    cases hv : TxnMgr.validateInput input with
    | error e =>
      rw [TxnMgr.init] at h
      simp [hv] at h
    | ok u =>
      rw [TxnMgr.init] at h
      simp only [hv, bind, Except.bind, pure, Except.pure,
        Except.ok.injEq] at h
      subst h
      refine ⟨rfl, ?_, ?_, rfl, rfl⟩
      · intro hn
        simp [hn]
      · intro hpos
        cases hn : options.numOutputs with
        | none => exact ⟨1, by simp [hn], Int.zero_lt_one⟩
        | some n => exact ⟨n, by simp [hn], hpos n hn⟩
  · intro ids
    induction ids with
    | nil =>
      intro store l h
      rw [TxnMgr.batchFetch, List.mapM_nil] at h
      simp only [Option.pure_def, Option.some.injEq] at h
      subst h
      intro txn htxn
      simp at htxn
    | cons id rest ih =>
      intro store l h
      rw [TxnMgr.batchFetch, List.mapM_cons] at h
      simp only [Option.bind_eq_bind, Option.bind_eq_some, Option.map_eq_some',
        Option.pure_def, Option.some.injEq] at h
      obtain ⟨t, ⟨raw, hraw, hback⟩, ts, hts, hl⟩ := h
      subst hl
      subst hback
      intro txn htxn
      rcases List.mem_cons.mp htxn with rfl | hmem
      · exact backfill_numOutputs_isSome raw
      · exact ih store ts (by rw [TxnMgr.batchFetch]; exact hts) txn hmem

/-- Witness for C9: a transaction built with no `numOutputs` option gets
1, and `_batchFetch` over a one-record store lacking `numOutputs` yields
a transaction with it defined. -/
theorem C9_numOutputs_invariant_witness :
    (∃ txn, TxnMgr.init (TxnMgr.Input.obj (some "Hello") none)
        { host := "https://example.com" } {} "id-3" 7 = Except.ok txn
      ∧ txn.numOutputs = some 1 ∧ txn.outputs = none ∧ txn.error = none)
    ∧ (∀ l, TxnMgr.batchFetch ["t1"]
        (fun i => if i = "t1"
          then some { id := "t1", timestamp := 0,
                      origin := { host := "https://example.com" },
                      input := TxnMgr.Input.obj (some "old") none,
                      numOutputs := none }
          else none) = some l →
        ∀ txn ∈ l, txn.numOutputs.isSome = true) := by
  constructor
  · refine ⟨_, rfl, ?_⟩
    have := C9_numOutputs_invariant.1 (TxnMgr.Input.obj (some "Hello") none)
      { host := "https://example.com" } {} "id-3" 7 _ rfl
    exact ⟨this.2.1 rfl, this.2.2.2.1, this.2.2.2.2⟩
  · intro l h
    exact C9_numOutputs_invariant.2 ["t1"] _ l h

/-- Counterexample to C9 as stated: options carrying `numOutputs: 0`
(defined, so the JavaScript default does not apply) produce a transaction
whose `numOutputs` is 0 — not a positive integer. -/
theorem C9_numOutputs_invariant_counterexample :
    ∃ txn, TxnMgr.init (TxnMgr.Input.obj (some "Hello") none)
        { host := "https://example.com" } { numOutputs := some 0 } "id-2" 5
        = Except.ok txn
      ∧ txn.numOutputs = some 0
      ∧ ∀ k, txn.numOutputs = some k → ¬ 0 < k := by
  refine ⟨_, rfl, rfl, ?_⟩
  intro k hk
  simp only [Option.getD_some, Option.some.injEq] at hk
  omega
